import Mathlib

set_option autoImplicit false

/-!
Verification development for the passim daemon (hughsie/passim).

The definitions below are a shallow embedding of the C sources:

* `src/src/passim-server.c`   — request handler, publish, item lifecycle
* `src/src/passim-common.c`   — xattr helpers, config
* `src/unnamed/part_000`      — passim-avahi.c (find/browse/resolve pipeline)
* `src/unnamed/part_009`      — libpassim passim-item.c (PassimItem, GVariant)

Machine integers (guint32/guint64) are modelled as `Nat` with explicit
`% 2^32` where C arithmetic can wrap.  Nullable `gchar *` values are
`Option String`.  The GLib hash table `self->items` (utf-8 key → PassimItem)
is modelled as an association list with hash-table semantics (insert
replaces, keys unique by construction of the operations used).
-/

/-! ## Word-level helpers (guint32) -/

/-- Modulus of `guint32` arithmetic. -/
def M32 : Nat := 4294967296

/-- The constant `G_MAXUINT32` (0xffffffff), used by passim as the
"unlimited" sentinel for `max_age` and `share_limit`. -/
def G_MAXUINT32 : Nat := 4294967295

/-- Addition of two 32-bit words, wrapping as C unsigned arithmetic does. -/
def add32 (a b : Nat) : Nat := (a + b) % M32

/-- Right-rotate a 32-bit word by `n` places. -/
def rotr32 (n x : Nat) : Nat := ((x >>> n) ||| (x <<< (32 - n))) % M32

/-- Three-way xor. -/
def xor3 (a b c : Nat) : Nat := (a ^^^ b) ^^^ c

/-- Bitwise complement within 32 bits. -/
def not32 (x : Nat) : Nat := x ^^^ G_MAXUINT32

/-! ## SHA-256

`g_compute_checksum_for_bytes(G_CHECKSUM_SHA256, blob)` and the hash
computed by `passim_item_set_bytes` are GLib's SHA-256; this is the
standard FIPS 180-4 algorithm over a byte list, with the digest rendered
as 64 lowercase hex characters exactly as `g_checksum_get_string` does. -/

/-- The 64 SHA-256 round constants (FIPS 180-4, written in decimal). -/
def sha256K : List Nat :=
  [1116352408, 1899447441, 3049323471, 3921009573, 961987163, 1508970993,
   2453635748, 2870763221, 3624381080, 310598401, 607225278, 1426881987,
   1925078388, 2162078206, 2614888103, 3248222580, 3835390401, 4022224774,
   264347078, 604807628, 770255983, 1249150122, 1555081692, 1996064986,
   2554220882, 2821834349, 2952996808, 3210313671, 3336571891, 3584528711,
   113926993, 338241895, 666307205, 773529912, 1294757372, 1396182291,
   1695183700, 1986661051, 2177026350, 2456956037, 2730485921, 2820302411,
   3259730800, 3345764771, 3516065817, 3600352804, 4094571909, 275423344,
   430227734, 506948616, 659060556, 883997877, 958139571, 1322822218,
   1537002063, 1747873779, 1955562222, 2024104815, 2227730452, 2361852424,
   2428436474, 2756734187, 3204031479, 3329325298]

/-- The initial SHA-256 state (FIPS 180-4, written in decimal). -/
def sha256H0 : List Nat :=
  [1779033703, 3144134277, 1013904242, 2773480762,
   1359893119, 2600822924, 528734635, 1541459225]

/-- Interpret a byte list as big-endian 32-bit words (length a multiple
of 4 after padding). -/
def bytesToWordsBE : List Nat → List Nat
  | a :: b :: c :: d :: rest => (((a * 256 + b) * 256 + c) * 256 + d) :: bytesToWordsBE rest
  | _ => []

/-- The 8-byte big-endian encoding of a length in bits. -/
def lenBytesBE (n : Nat) : List Nat :=
  [(n >>> 56) % 256, (n >>> 48) % 256, (n >>> 40) % 256, (n >>> 32) % 256,
   (n >>> 24) % 256, (n >>> 16) % 256, (n >>> 8) % 256, n % 256]

/-- SHA-256 padding: append `0x80`, zero bytes to 56 mod 64, then the
bit length big-endian. -/
def sha256Pad (msg : List Nat) : List Nat :=
  msg ++ 0x80 :: List.replicate ((119 - msg.length % 64) % 64) 0 ++ lenBytesBE (8 * msg.length)

/-- Split a word list into 16-word blocks (the padded message is always
a whole number of 64-byte blocks). -/
def chunk16 : List Nat → List (List Nat)
  | w0 :: w1 :: w2 :: w3 :: w4 :: w5 :: w6 :: w7 ::
    w8 :: w9 :: w10 :: w11 :: w12 :: w13 :: w14 :: w15 :: rest =>
      [w0, w1, w2, w3, w4, w5, w6, w7, w8, w9, w10, w11, w12, w13, w14, w15]
        :: chunk16 rest
  | _ => []

/-- Lower-case sigma-0 of the message schedule. -/
def smallSigma0 (x : Nat) : Nat := xor3 (rotr32 7 x) (rotr32 18 x) (x >>> 3)

/-- Lower-case sigma-1 of the message schedule. -/
def smallSigma1 (x : Nat) : Nat := xor3 (rotr32 17 x) (rotr32 19 x) (x >>> 10)

/-- Upper-case sigma-0 of the compression function. -/
def bigSigma0 (x : Nat) : Nat := xor3 (rotr32 2 x) (rotr32 13 x) (rotr32 22 x)

/-- Upper-case sigma-1 of the compression function. -/
def bigSigma1 (x : Nat) : Nat := xor3 (rotr32 6 x) (rotr32 11 x) (rotr32 25 x)

/-- The SHA-256 choose function. -/
def sha256Ch (e f g : Nat) : Nat := (e &&& f) ^^^ (not32 e &&& g)

/-- The SHA-256 majority function. -/
def sha256Maj (a b c : Nat) : Nat :=
  xor3 (a &&& b) (a &&& c) (b &&& c)

/-- Extend a 16-word block to the 64-word message schedule. -/
def sha256Schedule (block : List Nat) : List Nat :=
  (List.range 48).foldl
    (fun w i =>
      w ++ [add32 (add32 (smallSigma1 (w.getD (i + 14) 0)) (w.getD (i + 9) 0))
                  (add32 (smallSigma0 (w.getD (i + 1) 0)) (w.getD i 0))])
    block

/-- One application of the SHA-256 compression function. -/
def sha256Compress (h : List Nat) (block : List Nat) : List Nat :=
  let w := sha256Schedule block
  let st := (List.range 64).foldl
    (fun st i =>
      match st with
      | [a, b, c, d, e, f, g, hh] =>
        let t1 := add32 hh (add32 (bigSigma1 e)
                    (add32 (sha256Ch e f g) (add32 (sha256K.getD i 0) (w.getD i 0))))
        let t2 := add32 (bigSigma0 a) (sha256Maj a b c)
        [add32 t1 t2, a, b, c, add32 d t1, e, f, g]
      | _ => st) h
  match h, st with
  | [h0, h1, h2, h3, h4, h5, h6, h7], [a, b, c, d, e, f, g, hh] =>
    [add32 h0 a, add32 h1 b, add32 h2 c, add32 h3 d,
     add32 h4 e, add32 h5 f, add32 h6 g, add32 h7 hh]
  | _, _ => h

/-- The eight 32-bit state words of the SHA-256 digest of a byte list. -/
def sha256Words (msg : List Nat) : List Nat :=
  (chunk16 (bytesToWordsBE (sha256Pad msg))).foldl sha256Compress sha256H0

/-- A lowercase hexadecimal digit. -/
def hexDigit (n : Nat) : Char :=
  if n < 10 then Char.ofNat (48 + n) else Char.ofNat (87 + n)

/-- Render one 32-bit word as 8 lowercase hex characters. -/
def word32ToHex (w : Nat) : List Char :=
  [hexDigit ((w >>> 28) % 16), hexDigit ((w >>> 24) % 16),
   hexDigit ((w >>> 20) % 16), hexDigit ((w >>> 16) % 16),
   hexDigit ((w >>> 12) % 16), hexDigit ((w >>> 8) % 16),
   hexDigit ((w >>> 4) % 16), hexDigit (w % 16)]

/-- The lowercase hex SHA-256 digest of a byte list, as returned by
`g_compute_checksum_for_bytes(G_CHECKSUM_SHA256, ...)`. -/
def sha256_hexdigest (msg : List Nat) : String :=
  String.mk (((sha256Words msg).map word32ToHex).flatten)

/-- The bytes of the string `"hello world\n"` used by the repository's
own debugging walk-through. -/
def helloWorldBytes : List Nat :=
  [104, 101, 108, 108, 111, 32, 119, 111, 114, 108, 100, 10]

set_option maxRecDepth 20000 in
/-- Known-answer check for the SHA-256 embedding: the digest of
`"hello world\n"` matches the digest the repository documents for that
file content. -/
theorem sha256_hexdigest_hello_world :
    sha256_hexdigest helloWorldBytes
      = "a948904f2f0f479b8f8197694b30184b0d2ed1c1cd2a1ec0fb85d299a192a447" := by
  rfl

/-! ## GLib string helpers -/

/-- Split a character list at every occurrence of a separator
character, `acc` being the current (reversed) token. -/
def splitCharAux (sep : Char) : List Char → List Char → List (List Char)
  | [], acc => [acc.reverse]
  | c :: rest, acc =>
    if c = sep then acc.reverse :: splitCharAux sep rest []
    else splitCharAux sep rest (c :: acc)

/-- `g_strsplit(s, sep, -1)` for the single-character separators passim
uses: splitting the empty string yields an empty vector; otherwise split
on every occurrence of the separator. -/
def gStrsplit (s : String) (sep : Char) : List String :=
  if s = "" then [] else (splitCharAux sep s.toList []).map String.mk

/-- Split a character list at the first occurrence of a separator, if
any. -/
def splitCharFirst (sep : Char) : List Char → Option (List Char × List Char)
  | [] => none
  | c :: rest =>
    if c = sep then some ([], rest)
    else
      match splitCharFirst sep rest with
      | none => none
      | some (l, r) => some (c :: l, r)

/-- `g_strsplit(s, sep, 2)`: at most two tokens, the second keeping any
further separators. -/
def gStrsplitMax2 (s : String) (sep : Char) : List String :=
  if s = "" then []
  else
    match splitCharFirst sep s.toList with
    | none => [s]
    | some (l, r) => [String.mk l, String.mk r]

/-- `g_str_is_ascii`: every character is in the 7-bit ASCII range. -/
def gStrIsAscii (s : String) : Bool :=
  s.toList.all (fun c => c.toNat < 128)

/-! ## PassimItem (libpassim `passim-item.c`, `src/unnamed/part_009`)

Field-for-field image of `PassimItemPrivate`; `gchar *` fields that may
be NULL are `Option String`, `guint32` fields are `Nat` (always < 2^32
in reachable states), `flags` is the `guint64` bit set. -/

/-- Bit value of `PASSIM_ITEM_FLAG_DISABLED` (1 << 0). -/
def PASSIM_ITEM_FLAG_DISABLED : Nat := 1

/-- Bit value of `PASSIM_ITEM_FLAG_NEXT_REBOOT` (1 << 1). -/
def PASSIM_ITEM_FLAG_NEXT_REBOOT : Nat := 2

/-- The `PassimItemPrivate` record. `file` is the backing `GFile` path,
`bytes` the loaded contents, `ctime` the creation time in epoch seconds. -/
structure PassimItem where
  hash : Option String := none
  basename : Option String := none
  cmdline : Option String := none
  maxAge : Nat := 24 * 60 * 60
  shareLimit : Nat := 5
  shareCount : Nat := 0
  flags : Nat := 0
  file : Option String := none
  bytes : Option (List Nat) := none
  ctime : Option Nat := none
  deriving DecidableEq, Repr

/-- `passim_item_new()`: all pointers NULL, `max_age` 86400,
`share_limit` 5. -/
def passim_item_new : PassimItem := {}

/-- `passim_item_has_flag`. -/
def passim_item_has_flag (item : PassimItem) (flag : Nat) : Bool :=
  item.flags &&& flag > 0

/-- `passim_item_add_flag`. -/
def passim_item_add_flag (item : PassimItem) (flag : Nat) : PassimItem :=
  if flag = 0 then item
  else if item.flags &&& flag > 0 then item
  else { item with flags := item.flags ||| flag }

/-! ## The item hash table (`self->items`, utf-8 key → PassimItem) -/

/-- The daemon's item table, keyed by content hash. -/
def Store := List (String × PassimItem)

instance : DecidableEq Store := by
  unfold Store
  infer_instance

/-- `g_hash_table_lookup`. -/
def storeLookup (items : Store) (key : String) : Option PassimItem :=
  match items with
  | [] => none
  | (k, v) :: rest => if k = key then some v else storeLookup rest key

/-- `g_hash_table_contains`. -/
def storeContains (items : Store) (key : String) : Bool :=
  (storeLookup items key).isSome

/-- `g_hash_table_remove`. -/
def storeRemove (items : Store) (key : String) : Store :=
  match items with
  | [] => []
  | (k, v) :: rest => if k = key then storeRemove rest key else (k, v) :: storeRemove rest key

/-- `g_hash_table_insert`: replaces any entry with the same key. -/
def storeInsert (items : Store) (key : String) (item : PassimItem) : Store :=
  (key, item) :: storeRemove items key

/-- `g_hash_table_get_values`. -/
def storeValues (items : Store) : List PassimItem :=
  items.map Prod.snd

/-! ## GVariant serialization (`passim_item_to_variant` /
`passim_item_from_variant`, `src/unnamed/part_009`) -/

/-- A GVariant value as used in the item vardict: string, uint32 or
uint64. -/
inductive GVar where
  | vs (s : String)
  | vu32 (n : Nat)
  | vu64 (n : Nat)
  deriving DecidableEq, Repr

/-- A GVariant `a{sv}` dictionary: an ordered key/value list. -/
def GVarDict := List (String × GVar)

instance : DecidableEq GVarDict := by
  unfold GVarDict
  infer_instance

/-- `passim_item_to_variant`: builds the vardict with exactly the seven
entries the C builder adds, in order.  The C calls
`g_variant_new_string` on `basename`, `cmdline` and `hash`; passing NULL
there is undefined behaviour (GLib criticals and the builder aborts), so
the embedding returns the empty dictionary in that unreachable case and
every theorem about serialization assumes the three strings are set. -/
def passim_item_to_variant (item : PassimItem) : GVarDict :=
  match item.basename, item.cmdline, item.hash with
  | some b, some c, some h =>
    [("filename", GVar.vs b),
     ("cmdline", GVar.vs c),
     ("hash", GVar.vs h),
     ("max-age", GVar.vu32 item.maxAge),
     ("flags", GVar.vu64 item.flags),
     ("share-limit", GVar.vu32 item.shareLimit),
     ("share-count", GVar.vu32 item.shareCount)]
  | _, _, _ => []

/-- One iteration of the `passim_item_from_variant` loop: each key that
matches updates the corresponding private field (`g_variant_dup_string`
and `g_variant_get_uint32/uint64` on a value of the right type). -/
def passim_item_from_variant_step (item : PassimItem) (kv : String × GVar) : PassimItem :=
  let item := match kv with
    | ("filename", GVar.vs s) => { item with basename := some s }
    | _ => item
  let item := match kv with
    | ("cmdline", GVar.vs s) => { item with cmdline := some s }
    | _ => item
  let item := match kv with
    | ("hash", GVar.vs s) => { item with hash := some s }
    | _ => item
  let item := match kv with
    | ("max-age", GVar.vu32 n) => { item with maxAge := n }
    | _ => item
  let item := match kv with
    | ("share-limit", GVar.vu32 n) => { item with shareLimit := n }
    | _ => item
  let item := match kv with
    | ("share-count", GVar.vu32 n) => { item with shareCount := n }
    | _ => item
  match kv with
    | ("flags", GVar.vu64 n) => { item with flags := n }
    | _ => item

/-- `passim_item_from_variant`: fold the entry list over a fresh
`passim_item_new`. -/
def passim_item_from_variant (dict : GVarDict) : PassimItem :=
  dict.foldl passim_item_from_variant_step passim_item_new

/-- The `GetItems` D-Bus method body: one vardict per value of the item
table (`passim_server_method_call`, `src/src/passim-server.c`). -/
def passim_server_get_items (items : Store) : List GVarDict :=
  (storeValues items).map passim_item_to_variant

/-! ## xattr accessors (`src/src/passim-common.c`)

An extended attribute on a file is modelled as `Option` (present value
or ENODATA); other errno failures are not modelled. -/

/-- `passim_xattr_get_uint32`: fall back on ENODATA, reject a stored
value equal to `G_MAXUINT32` as invalid data (returning the
`G_MAXUINT32` error marker the callers test for). -/
def passim_xattr_get_uint32 (attr : Option Nat) (value_fallback : Nat) : Nat :=
  match attr with
  | none => value_fallback
  | some value => if value = G_MAXUINT32 then G_MAXUINT32 else value

/-- `passim_xattr_get_string`: ENODATA yields the empty string, a
zero-length stored value is an error (NULL). -/
def passim_xattr_get_string (attr : Option String) : Option String :=
  match attr with
  | none => some ""
  | some s => if s = "" then none else some s

/-! ## On-disk data file

A file in the owned data directory: its name (`{hash}-{basename}`), the
content bytes and the extended attributes passim reads and writes. -/

/-- One file of the owned data directory with its xattrs. -/
structure DiskFile where
  name : String
  bytes : List Nat
  isSymlink : Bool := false
  maxAgeAttr : Option Nat := none
  shareLimitAttr : Option Nat := none
  cmdlineAttr : Option String := none
  bootTimeAttr : Option String := none
  ctime : Nat := 0
  deriving DecidableEq, Repr

/-! ## HTTPS request classification (`passim_server_handler_cb`,
`src/src/passim-server.c`) -/

/-- An inbound HTTPS request as seen by the soup handler: the method,
the URL path, the raw query string (`g_uri_get_query`, NULL when the
URL has no `?`), and whether the remote socket address is loopback. -/
structure HttpRequest where
  method : String
  path : String
  query : Option String
  isLoopback : Bool
  deriving DecidableEq, Repr

/-- What the handler does with a request: an error/status response, the
HTML index, a static asset, serving a stored item, or pausing the
message and starting an Avahi find for a remote copy. -/
inductive HandlerAction where
  | respond (status : Nat)
  | index
  | asset (path : String)
  | serve (hash : String)
  | findRemote (hash : String) (basename : String)
  deriving DecidableEq, Repr

/-- The `sha256=` extraction loop of `passim_server_handler_cb`: split
the query on `&`, take the first pair that splits on `=` into exactly
two tokens with key `sha256`. -/
def passim_query_get_sha256 (query : String) : Option String :=
  (gStrsplit query (Char.ofNat 38)).findSome? fun pair =>
    match gStrsplit pair (Char.ofNat 61) with
    | [k, v] => if k = "sha256" then some v else none
    | _ => none

/-- `SOUP_STATUS_MOVED_TEMPORARILY` is libsoup's alias for HTTP 302
(Found); `SOUP_STATUS_SEE_OTHER` would be 303. -/
def SOUP_STATUS_MOVED_TEMPORARILY : Nat := 302

/-- `passim_server_handler_cb` (request classification only; the state
change of a serve is `passim_server_msg_send_item` below).  Follows the
C control flow in order: non-GET 403; index and static assets are
loopback-only; no query or no `sha256=` pair 400; a hash that is not
ASCII or not 64 characters long 406; a known item 423 when disabled,
else served; an unknown hash 403 for non-loopback peers, else an Avahi
find with the redirect basename taken from `request[0]`, the first
`&`-separated component of the query string. -/
def passim_server_handler_cb (items : Store) (req : HttpRequest) : HandlerAction :=
  if req.method ≠ "GET" then .respond 403
  else if req.path = "/" then
    if !req.isLoopback then .respond 403 else .index
  else if req.path = "/favicon.ico" ∨ req.path = "/style.css" then
    if !req.isLoopback then .respond 403 else .asset req.path
  else
    match req.query with
    | none => .respond 400
    | some q =>
      match passim_query_get_sha256 q with
      | none => .respond 400
      | some hash =>
        if ¬ gStrIsAscii hash ∨ hash.length ≠ 64 then .respond 406
        else
          match storeLookup items hash with
          | some item =>
            if passim_item_has_flag item PASSIM_ITEM_FLAG_DISABLED then .respond 423
            else .serve hash
          | none =>
            if !req.isLoopback then .respond 403
            else .findRemote hash ((gStrsplit q (Char.ofNat 38)).headD "")

/-- `passim_server_context_send_redirect`: the URI placed both in the
`Location` header and in the HTML body. -/
def passim_server_context_send_redirect (basename hash location : String) : String :=
  "https://" ++ location ++ "/" ++ basename ++ "?sha256=" ++ hash

/-- The response of the redirect path: status plus optional `Location`
header. -/
structure HttpResponse where
  status : Nat
  location : Option String
  deriving DecidableEq, Repr

/-- `passim_server_avahi_find_cb`: a failed find is a 404; otherwise an
index is drawn by `g_random_int_range(0, addresses->len)` (modelled by
the `indexRandom` argument) and the redirect is emitted for exactly that
address with status `SOUP_STATUS_MOVED_TEMPORARILY`. -/
def passim_server_avahi_find_cb (basename hash : String)
    (addresses : Option (List String)) (indexRandom : Nat) : HttpResponse :=
  match addresses with
  | none => { status := 404, location := none }
  | some addrs =>
    { status := SOUP_STATUS_MOVED_TEMPORARILY,
      location := some (passim_server_context_send_redirect basename hash
        (addrs.getD indexRandom "")) }

/-! ## Item deletion and serving (`passim_server_delete_item`,
`passim_server_msg_send_item`, `src/src/passim-server.c`) -/

/-- The advertised hash set built by `passim_server_avahi_register`:
every non-`DISABLED` item's hash. -/
def passim_server_advertised_hashes (items : Store) : List String :=
  (storeValues items).filterMap fun item =>
    if passim_item_has_flag item PASSIM_ITEM_FLAG_DISABLED then none else item.hash

/-- `passim_server_delete_item`: delete the backing file first
(`deleteOk` is the outcome of `g_file_delete`); only on success remove
the table entry and re-run Avahi registration (`regOk` its outcome).
Returns the new table, whether re-registration was invoked, and the
overall boolean result. -/
def passim_server_delete_item (items : Store) (item : PassimItem)
    (deleteOk regOk : Bool) : Store × Bool × Bool :=
  if !deleteOk then (items, false, false)
  else (storeRemove items (item.hash.getD ""), true, regOk)

/-- `passim_server_msg_send_item`: after streaming the file, increment
`share_count` (guint32 wrap-around) on the stored object, then delete
the item if `share_limit > 0` and the new count has reached it. -/
def passim_server_msg_send_item (items : Store) (hash : String)
    (deleteOk regOk : Bool) : Store :=
  match storeLookup items hash with
  | none => items
  | some item =>
    let item2 := { item with shareCount := (item.shareCount + 1) % M32 }
    let items2 := storeInsert items hash item2
    if item2.shareLimit > 0 ∧ item2.shareCount ≥ item2.shareLimit then
      (passim_server_delete_item items2 item2 deleteOk regOk).1
    else items2

/-- The item-table transition of one handled request: only the `serve`
classification mutates the table. -/
def passim_server_handle_request (items : Store) (req : HttpRequest)
    (deleteOk regOk : Bool) : Store :=
  match passim_server_handler_cb items req with
  | .serve hash => passim_server_msg_send_item items hash deleteOk regOk
  | _ => items

/-! ## Publish (`passim_server_publish_file`, `src/src/passim-server.c`) -/

/-- Error classification of a publish, mirroring the GError the C sets:
`G_IO_ERROR_EXISTS` for a duplicate hash or file, other I/O failures,
and a failed Avahi re-registration (which happens after the insert). -/
inductive PublishError where
  | alreadyExists
  | ioError
  | registerFailed
  deriving DecidableEq, Repr

/-- Outcomes of the file-system calls a publish makes, each a boolean
success flag; `fileAlreadyOnDisk` is the `g_file_test` on the target
path. -/
structure PublishEnv where
  mkdirOk : Bool := true
  fileAlreadyOnDisk : Bool := false
  writeOk : Bool := true
  xattrMaxAgeOk : Bool := true
  xattrShareLimitOk : Bool := true
  xattrCmdlineOk : Bool := true
  xattrBootTimeOk : Bool := true
  regOk : Bool := true
  deriving DecidableEq, Repr

/-- `passim_server_publish_file`: hash the blob, reject a duplicate,
write `{hash}-{basename}` with the `user.max_age`, `user.share_limit`
and `user.cmdline` xattrs; a `NEXT_REBOOT` item additionally records
`user.boot_time` (the current boot token) and gains the `DISABLED`
flag; then the item (hash and file set) is inserted and Avahi
re-registered.  Returns the resulting table together with either the
error or the stored item and the disk file it created.  On every error
before the insert the table is unchanged; a register failure leaves the
freshly inserted item in the table, exactly as the C does. -/
def passim_server_publish_file (items : Store) (blob : List Nat)
    (item : PassimItem) (env : PublishEnv) (bootTimeNow : String) :
    Store × Except PublishError (PassimItem × DiskFile) :=
  let hash := sha256_hexdigest blob
  if storeContains items hash then (items, .error .alreadyExists)
  else
    let hashed_filename := hash ++ "-" ++ (item.basename.getD "")
    if !env.mkdirOk then (items, .error .ioError)
    else if env.fileAlreadyOnDisk then (items, .error .alreadyExists)
    else if !env.writeOk then (items, .error .ioError)
    else if !env.xattrMaxAgeOk then (items, .error .ioError)
    else if !env.xattrShareLimitOk then (items, .error .ioError)
    else if !env.xattrCmdlineOk then (items, .error .ioError)
    else
      let isNextReboot := passim_item_has_flag item PASSIM_ITEM_FLAG_NEXT_REBOOT
      if isNextReboot ∧ !env.xattrBootTimeOk then (items, .error .ioError)
      else
        let item2 :=
          if isNextReboot then passim_item_add_flag item PASSIM_ITEM_FLAG_DISABLED
          else item
        let item3 := { item2 with hash := some hash, file := some hashed_filename }
        let df : DiskFile :=
          { name := hashed_filename,
            bytes := blob,
            maxAgeAttr := some item.maxAge,
            shareLimitAttr := some item.shareLimit,
            cmdlineAttr := some (item.cmdline.getD ""),
            bootTimeAttr := if isNextReboot then some bootTimeNow else none }
        let items2 := storeInsert items hash item3
        if env.regOk then (items2, .ok (item3, df))
        else (items2, .error .registerFailed)

/-! ## Startup scan of the owned directory (`passim_server_libdir_add`,
`passim_server_libdir_scan`, `main`, `src/src/passim-server.c`) -/

/-- Error classification of a scan, mirroring the GError codes used:
`G_IO_ERROR_INVALID_FILENAME` for a name that does not split into
`{hash}-{filename}`, `G_IO_ERROR_PERMISSION_DENIED` for a refused
symlink open, `G_IO_ERROR_INVALID_DATA` for a rejected xattr. -/
inductive ScanError where
  | invalidFilename
  | permissionDenied
  | invalidData
  deriving DecidableEq, Repr

/-- `passim_server_libdir_add`: split the file name once on `-`, load
the bytes with `O_NOFOLLOW` (recomputing the hash from content), read
`user.max_age` (fallback 86400) and `user.share_limit` (fallback 5)
rejecting the `G_MAXUINT32` marker, read `user.cmdline`, and add the
`NEXT_REBOOT` and `DISABLED` flags exactly when a stored
`user.boot_time` compares equal (`g_strcmp0 == 0`) to the current boot
token. -/
def passim_server_libdir_add (items : Store) (df : DiskFile)
    (bootTimeNow : String) : Except ScanError Store :=
  match gStrsplitMax2 df.name (Char.ofNat 45) with
  | [_, basename] =>
    if df.isSymlink then .error .permissionDenied
    else
      let hash := sha256_hexdigest df.bytes
      let maxAge := passim_xattr_get_uint32 df.maxAgeAttr (24 * 60 * 60)
      if maxAge = G_MAXUINT32 then .error .invalidData
      else
        let shareLimit := passim_xattr_get_uint32 df.shareLimitAttr 5
        if shareLimit = G_MAXUINT32 then .error .invalidData
        else
          match passim_xattr_get_string df.cmdlineAttr with
          | none => .error .invalidData
          | some cmdline =>
            let flags :=
              match passim_xattr_get_string df.bootTimeAttr with
              | some boot_time =>
                if bootTimeNow = boot_time then
                  PASSIM_ITEM_FLAG_NEXT_REBOOT ||| PASSIM_ITEM_FLAG_DISABLED
                else 0
              | none => 0
            let item : PassimItem :=
              { hash := some hash,
                basename := some basename,
                cmdline := some cmdline,
                maxAge := maxAge,
                shareLimit := shareLimit,
                shareCount := 0,
                flags := flags,
                file := some df.name,
                bytes := none,
                ctime := some df.ctime }
            .ok (storeInsert items hash item)
  | _ => .error .invalidFilename

/-- `passim_server_libdir_scan`: add each directory entry in turn,
aborting on the first failure. -/
def passim_server_libdir_scan (items : Store) (files : List DiskFile)
    (bootTimeNow : String) : Except ScanError Store :=
  match files with
  | [] => .ok items
  | df :: rest =>
    match passim_server_libdir_add items df bootTimeNow with
    | .error e => .error e
    | .ok items2 => passim_server_libdir_scan items2 rest bootTimeNow

/-- The `main` startup step around the scan (`src/src/passim-server.c`
lines 1454-1457): a failed scan prints the error and exits the process
with code 1; on success startup continues (`none`). -/
def passim_server_main_scan_exit (files : List DiskFile)
    (bootTimeNow : String) : Option Nat :=
  match passim_server_libdir_scan [] files bootTimeNow with
  | .error _ => some 1
  | .ok _ => none

/-! ## The find pipeline resolve loop (`passim_avahi_service_resolve_cb`
and `passim_avahi_service_resolve_next`, `src/unnamed/part_000`)

Each browse candidate still to be resolved is represented by the result
its resolver will deliver: `Except.ok address` for a `Found` signal,
`Except.error message` for a `Failure`. -/

/-- The alternation of `passim_avahi_service_resolve_next` (return the
accumulated addresses when no items remain, the "cannot find hash" error
when they are empty) and `passim_avahi_service_resolve_cb` (abort the
task on a resolver error, otherwise append the address unless it is
already present and continue). -/
def passim_avahi_resolve_loop (outcomes : List (Except String String))
    (addresses : List String) : Except String (List String) :=
  match outcomes with
  | [] =>
    if addresses.length > 0 then .ok addresses
    else .error "cannot find hash"
  | outcome :: rest =>
    match outcome with
    | .error e => .error e
    | .ok address =>
      if address ∈ addresses then passim_avahi_resolve_loop rest addresses
      else passim_avahi_resolve_loop rest (addresses ++ [address])

/-! ## Supporting notions and lemmas -/

/-- A character of a lowercase-or-uppercase hexadecimal digest
(`0-9a-fA-F`); this is the spec-level notion of "ASCII hexadecimal" a
well-formed hash value consists of. -/
def isSha256HexChar (c : Char) : Bool :=
  (48 ≤ c.toNat && c.toNat ≤ 57) || (97 ≤ c.toNat && c.toNat ≤ 102)
    || (65 ≤ c.toNat && c.toNat ≤ 70)

/-- A well-formed hash value: exactly 64 ASCII hexadecimal characters. -/
def isSha256Hex (s : String) : Bool :=
  s.length = 64 && s.toList.all isSha256HexChar

/-- A well-formed hash passes the weaker check the C actually performs
(`g_str_is_ascii` plus `strlen == 64`). -/
theorem isSha256Hex_ascii_len {s : String} (h : isSha256Hex s = true) :
    gStrIsAscii s = true ∧ s.length = 64 := by
  unfold isSha256Hex at h
  rw [Bool.and_eq_true] at h
  obtain ⟨hlen, hall⟩ := h
  refine ⟨?_, by simpa using hlen⟩
  unfold gStrIsAscii
  rw [List.all_eq_true] at hall ⊢
  intro c hc
  have := hall c hc
  unfold isSha256HexChar at this
  simp only [Bool.or_eq_true, Bool.and_eq_true, decide_eq_true_eq] at this ⊢
  omega

/-- The keys of the item table. -/
def storeKeys (items : Store) : List String :=
  items.map Prod.fst

/-- Looking up a freshly inserted key yields the inserted item. -/
theorem storeLookup_insert_self (items : Store) (k : String) (v : PassimItem) :
    storeLookup (storeInsert items k v) k = some v := by
  simp [storeInsert, storeLookup]

/-- A removed key is no longer found. -/
theorem storeLookup_remove_self (items : Store) (k : String) :
    storeLookup (storeRemove items k) k = none := by
  induction items with
  | nil => rfl
  | cons p rest ih =>
    obtain ⟨k2, v2⟩ := p
    unfold storeRemove
    by_cases h : k2 = k
    · simpa [h] using ih
    · simpa [storeLookup, h] using ih

/-- A removed key is absent from the key list. -/
theorem storeKeys_remove_self (items : Store) (k : String) :
    k ∉ storeKeys (storeRemove items k) := by
  induction items with
  | nil => simp [storeRemove, storeKeys]
  | cons p rest ih =>
    obtain ⟨k2, v2⟩ := p
    unfold storeRemove
    by_cases h : k2 = k
    · simpa [h] using ih
    · simp only [if_neg h, storeKeys, List.map_cons, List.mem_cons]
      rintro (rfl | hmem)
      · exact h rfl
      · exact ih hmem

/-- A found item is among the table's values. -/
theorem storeLookup_mem_values {items : Store} {k : String} {v : PassimItem}
    (h : storeLookup items k = some v) : v ∈ storeValues items := by
  induction items with
  | nil => simp [storeLookup] at h
  | cons p rest ih =>
    obtain ⟨k2, v2⟩ := p
    unfold storeLookup at h
    by_cases hk : k2 = k
    · rw [if_pos hk] at h
      simp only [storeValues, List.map_cons, List.mem_cons]
      exact Or.inl (Option.some.inj h).symm
    · rw [if_neg hk] at h
      simp only [storeValues, List.map_cons, List.mem_cons]
      exact Or.inr (ih h)

/-- A sample well-formed hash value: 64 times `a`. -/
def sampleHash : String := String.mk (List.replicate 64 (Char.ofNat 97))

/-- A 64-character ASCII value that is not hexadecimal: 64 times `z`. -/
def sampleNonHex : String := String.mk (List.replicate 64 (Char.ofNat 122))

/-! ## C1 -/

set_option maxRecDepth 40000 in
/-- C1: evaluation of the daemon at the claim's scenario — a loopback
`GET /HELLO.md?sha256={64 hex chars}` whose hash is not stored, with
discovery returning the single address `192.168.122.39:27500` (so the
random index is 0).  The handler starts the find with the redirect
basename taken from the first query pair rather than the path, and the
emitted response has status 302 (`SOUP_STATUS_MOVED_TEMPORARILY`) with a
`Location` of `https://{addr}/sha256={hash}?sha256={hash}` — not the
status 303 and `Location` `https://{addr}/HELLO.md?sha256={hash}` that
the claim and the repository's README describe. -/
theorem passim_redirect_code_divergence :
    passim_server_handler_cb []
        { method := "GET", path := "/HELLO.md",
          query := some ("sha256=" ++ sampleHash), isLoopback := true }
      = HandlerAction.findRemote sampleHash ("sha256=" ++ sampleHash) ∧
    passim_server_avahi_find_cb ("sha256=" ++ sampleHash) sampleHash
        (some ["192.168.122.39:27500"]) 0
      = { status := 302,
          location := some ("https://192.168.122.39:27500/sha256=" ++ sampleHash
            ++ "?sha256=" ++ sampleHash) } ∧
    (302 : Nat) ≠ 303 ∧
    ("https://192.168.122.39:27500/sha256=" ++ sampleHash ++ "?sha256=" ++ sampleHash)
      ≠ ("https://192.168.122.39:27500/HELLO.md?sha256=" ++ sampleHash) := by
  refine ⟨by decide, by decide, by decide, by decide⟩

/-! ## C3 -/

set_option maxRecDepth 40000 in
/-- C3 counterexample: `GET /x?sha256={64 times z}` from a non-loopback
peer.  The value is 64 ASCII characters but not hexadecimal, so the
claim demands a 406; the code only checks `g_str_is_ascii` and the
length, treats the value as well formed, fails the store lookup and
responds 403. -/
theorem passim_nonhex_hash_not_rejected :
    passim_server_handler_cb []
        { method := "GET", path := "/x",
          query := some ("sha256=" ++ sampleNonHex), isLoopback := false }
      = HandlerAction.respond 403 ∧
    isSha256Hex sampleNonHex = false ∧
    gStrIsAscii sampleNonHex = true ∧
    sampleNonHex.length = 64 ∧
    HandlerAction.respond 403 ≠ HandlerAction.respond 406 := by
  refine ⟨by decide, by decide, by decide, by decide, by decide⟩

/-- C3 (amended): for every GET request whose path is not `/`,
`/favicon.ico` or `/style.css`: a query carrying no `sha256=` pair (or
no query at all) yields status 400, and a supplied value that is not
all-ASCII or whose length is not 64 yields 406.  (The code does not
check that the characters are hexadecimal: a 64-character ASCII non-hex
value is treated as well formed — see the counterexample.) -/
theorem passim_handler_hash_validation (items : Store) (req : HttpRequest)
    (hm : req.method = "GET")
    (h1 : req.path ≠ "/") (h2 : req.path ≠ "/favicon.ico") (h3 : req.path ≠ "/style.css") :
    (req.query.bind passim_query_get_sha256 = none →
      passim_server_handler_cb items req = HandlerAction.respond 400) ∧
    (∀ hsh, req.query.bind passim_query_get_sha256 = some hsh →
      (¬ gStrIsAscii hsh ∨ hsh.length ≠ 64) →
      passim_server_handler_cb items req = HandlerAction.respond 406) := by
  constructor
  · intro hq
    cases hqv : req.query with
    | none =>
      unfold passim_server_handler_cb
      simp [hm, h1, h2, h3, hqv]
    | some q =>
      rw [hqv] at hq
      replace hq : passim_query_get_sha256 q = none := hq
      unfold passim_server_handler_cb
      simp [hm, h1, h2, h3, hqv, hq]
  · intro hsh hq hbad
    cases hqv : req.query with
    | none => rw [hqv] at hq; exact absurd hq (by simp)
    | some q =>
      rw [hqv] at hq
      replace hq : passim_query_get_sha256 q = some hsh := hq
      unfold passim_server_handler_cb
      simp only [hm, h1, h2, h3, hqv, hq]
      have hbad2 : ¬gStrIsAscii hsh = true ∨ ¬hsh.length = 64 := by
        rcases hbad with hb | hb
        · exact Or.inl hb
        · exact Or.inr hb
      rw [if_neg (by simp : ¬("GET" ≠ "GET")), if_neg (by simp : ¬False),
          if_neg (by simp : ¬(False ∨ False)),
          if_pos (by rcases hbad2 with hb | hb; exacts [Or.inl hb, Or.inr hb] :
            ¬gStrIsAscii hsh = true ∨ hsh.length ≠ 64)]

/-- C3 witness: the amended theorem applied at `GET /x` with no query
(400) and at `GET /x?sha256=abc` (three characters, 406). -/
theorem passim_handler_hash_validation_witness :
    (passim_server_handler_cb []
        { method := "GET", path := "/x", query := none, isLoopback := true }
      = HandlerAction.respond 400) ∧
    (passim_server_handler_cb []
        { method := "GET", path := "/x", query := some "sha256=abc", isLoopback := true }
      = HandlerAction.respond 406) := by
  constructor
  · exact (passim_handler_hash_validation []
      { method := "GET", path := "/x", query := none, isLoopback := true }
      rfl (by decide) (by decide) (by decide)).1 (by decide)
  · exact (passim_handler_hash_validation []
      { method := "GET", path := "/x", query := some "sha256=abc", isLoopback := true }
      rfl (by decide) (by decide) (by decide)).2 "abc" (by decide) (by decide)

/-! ## C4 -/

/-- C4: a GET request from a non-loopback peer whose query supplies a
well-formed (64 ASCII hex characters) hash that is not in the local
store is answered 403 — not 404 — and the handler never reaches the
`findRemote` classification, so no LAN browse/resolve is started on the
peer's behalf. -/
theorem passim_remote_unknown_hash_forbidden (items : Store) (req : HttpRequest)
    (q hsh : String)
    (hm : req.method = "GET") (hl : req.isLoopback = false)
    (hq : req.query = some q) (hh : passim_query_get_sha256 q = some hsh)
    (hhex : isSha256Hex hsh = true)
    (hmiss : storeLookup items hsh = none) :
    passim_server_handler_cb items req = HandlerAction.respond 403 ∧
    HandlerAction.respond 403 ≠ HandlerAction.respond 404 ∧
    ∀ h2 b, passim_server_handler_cb items req ≠ HandlerAction.findRemote h2 b := by
  obtain ⟨hascii, hlen⟩ := isSha256Hex_ascii_len hhex
  have hmain : passim_server_handler_cb items req = HandlerAction.respond 403 := by
    unfold passim_server_handler_cb
    by_cases hp1 : req.path = "/"
    · simp [hm, hp1, hl]
    · by_cases hp2 : req.path = "/favicon.ico" ∨ req.path = "/style.css"
      · simp [hm, hp1, hp2, hl]
      · simp [hm, hp1, hp2, hq, hh, hascii, hlen, hmiss, hl]
  refine ⟨hmain, by decide, ?_⟩
  intro h2 b
  rw [hmain]
  intro hcontra
  exact HandlerAction.noConfusion hcontra

set_option maxRecDepth 40000 in
/-- C4 witness: the theorem applied to `GET /x?sha256={64 times a}` from
a non-loopback peer against an empty store. -/
theorem passim_remote_unknown_hash_forbidden_witness :
    passim_server_handler_cb []
        { method := "GET", path := "/x",
          query := some ("sha256=" ++ sampleHash), isLoopback := false }
      = HandlerAction.respond 403 ∧
    HandlerAction.respond 403 ≠ HandlerAction.respond 404 ∧
    ∀ h2 b, passim_server_handler_cb []
        { method := "GET", path := "/x",
          query := some ("sha256=" ++ sampleHash), isLoopback := false }
      ≠ HandlerAction.findRemote h2 b :=
  passim_remote_unknown_hash_forbidden []
    { method := "GET", path := "/x",
      query := some ("sha256=" ++ sampleHash), isLoopback := false }
    ("sha256=" ++ sampleHash) sampleHash rfl rfl rfl (by decide) (by decide) rfl

/-! ## C7 -/

/-- Unfolding equation: a successful resolution appends the address
(unless duplicated) and continues. -/
theorem passim_resolve_loop_cons_ok (a : String)
    (rest : List (Except String String)) (addrs : List String) :
    passim_avahi_resolve_loop (Except.ok a :: rest) addrs
      = if a ∈ addrs then passim_avahi_resolve_loop rest addrs
        else passim_avahi_resolve_loop rest (addrs ++ [a]) := rfl

/-- Unfolding equation: a failed resolution returns the error at once. -/
theorem passim_resolve_loop_cons_error (e : String)
    (rest : List (Except String String)) (addrs : List String) :
    passim_avahi_resolve_loop (Except.error e :: rest) addrs
      = Except.error e := rfl

/-- When every remaining resolver delivers an address, the find
succeeds exactly when there is at least one candidate or an address
was already accumulated. -/
theorem passim_resolve_loop_all_ok (outcomes : List (Except String String))
    (addrs : List String)
    (h : ∀ o ∈ outcomes, ∃ a, o = Except.ok a) :
    (∃ r, passim_avahi_resolve_loop outcomes addrs = Except.ok r) ↔
      outcomes ≠ [] ∨ addrs ≠ [] := by
  induction outcomes generalizing addrs with
  | nil =>
    cases addrs with
    | nil => simp [passim_avahi_resolve_loop]
    | cons a rest => simp [passim_avahi_resolve_loop]
  | cons o rest ih =>
    obtain ⟨a, rfl⟩ := h o (List.mem_cons_self o rest)
    have hrest : ∀ o2 ∈ rest, ∃ a2, o2 = Except.ok a2 :=
      fun o2 ho2 => h o2 (List.mem_cons_of_mem _ ho2)
    rw [passim_resolve_loop_cons_ok]
    by_cases hmem : a ∈ addrs
    · rw [if_pos hmem, ih addrs hrest]
      have hne : addrs ≠ [] := by rintro rfl; simp at hmem
      simp [hne]
    · rw [if_neg hmem, ih (addrs ++ [a]) hrest]
      simp

/-- A resolver failure anywhere in the list makes the whole find return
that failure, regardless of the addresses already accumulated. -/
theorem passim_resolve_loop_error_aborts (pre post : List (Except String String))
    (e : String) (addrs : List String)
    (hpre : ∀ o ∈ pre, ∃ a, o = Except.ok a) :
    passim_avahi_resolve_loop (pre ++ Except.error e :: post) addrs
      = Except.error e := by
  induction pre generalizing addrs with
  | nil => rw [List.nil_append, passim_resolve_loop_cons_error]
  | cons o rest ih =>
    obtain ⟨a, rfl⟩ := hpre o (List.mem_cons_self o rest)
    have hrest : ∀ o2 ∈ rest, ∃ a2, o2 = Except.ok a2 :=
      fun o2 ho2 => hpre o2 (List.mem_cons_of_mem _ ho2)
    rw [List.cons_append, passim_resolve_loop_cons_ok]
    by_cases hmem : a ∈ addrs
    · rw [if_pos hmem]; exact ih addrs hrest
    · rw [if_neg hmem]; exact ih (addrs ++ [a]) hrest

/-- C7 counterexample: with two browse candidates, the first resolving
to `10.0.0.2:27500` and the second failing with `timed out`, the find
fails with `timed out` even though an address had been resolved (and
the first candidate alone would have produced a successful lookup), so
a failure during resolution of one candidate does prevent success via
another, and the lookup fails while the resolved-address set is
non-empty. -/
theorem passim_resolve_abort_counterexample :
    passim_avahi_resolve_loop
        [Except.ok "10.0.0.2:27500", Except.error "timed out"] []
      = Except.error "timed out" ∧
    passim_avahi_resolve_loop [Except.ok "10.0.0.2:27500"] []
      = Except.ok ["10.0.0.2:27500"] := by
  refine ⟨by rfl, by rfl⟩

/-- C7 (amended): a failure while resolving any candidate aborts the
whole find(hash) lookup with that failure's error — resolutions of the
remaining candidates are not attempted and already-resolved addresses
are discarded; when every candidate resolves successfully, the lookup
fails only when the accumulated address list is empty, i.e. when there
was no candidate at all. -/
theorem passim_resolve_failure_discipline (pre post : List (Except String String))
    (e : String) (addrs : List String)
    (hpre : ∀ o ∈ pre, ∃ a, o = Except.ok a) :
    passim_avahi_resolve_loop (pre ++ Except.error e :: post) addrs
      = Except.error e ∧
    (∀ outcomes : List (Except String String),
      (∀ o ∈ outcomes, ∃ a, o = Except.ok a) →
      ((∃ r, passim_avahi_resolve_loop outcomes addrs = Except.ok r) ↔
        outcomes ≠ [] ∨ addrs ≠ [])) :=
  ⟨passim_resolve_loop_error_aborts pre post e addrs hpre,
   fun outcomes h => passim_resolve_loop_all_ok outcomes addrs h⟩

/-- C7 witness: the amended theorem applied with one successful
candidate before the failing one and an empty accumulator. -/
theorem passim_resolve_failure_discipline_witness :
    passim_avahi_resolve_loop
        ([Except.ok "10.0.0.2:27500"] ++ Except.error "boom" :: []) []
      = Except.error "boom" ∧
    (∀ outcomes : List (Except String String),
      (∀ o ∈ outcomes, ∃ a, o = Except.ok a) →
      ((∃ r, passim_avahi_resolve_loop outcomes [] = Except.ok r) ↔
        outcomes ≠ [] ∨ ([] : List String) ≠ [])) :=
  passim_resolve_failure_discipline [Except.ok "10.0.0.2:27500"] [] "boom" []
    (by intro o ho; simp at ho; exact ⟨_, ho⟩)

/-! ## C8 -/

/-- A concrete item with all serialized string fields set, as stored
for a published file. -/
def roundtripItem : PassimItem :=
  { hash := some sampleHash, basename := some "HELLO.md", cmdline := some "fwupd" }

set_option maxRecDepth 40000 in
/-- C8 counterexample: the vardict `passim_item_to_variant` builds (and
which `GetItems` returns one of per stored item) has no `size` key — its
keys are exactly `filename`, `cmdline`, `hash`, `max-age`, `flags`,
`share-limit` and `share-count`. -/
theorem passim_variant_no_size_key :
    passim_server_get_items [(sampleHash, roundtripItem)]
      = [passim_item_to_variant roundtripItem] ∧
    ("size" ∈ (passim_item_to_variant roundtripItem).map Prod.fst) = False := by
  refine ⟨by decide, by decide⟩

/-- C8 (amended): every record returned by `GetItems` is the vardict of
a stored item; for an item whose string fields are set that vardict has
exactly the keys `filename`, `cmdline`, `hash`, `max-age`, `flags`,
`share-limit`, `share-count` (there is no `size` key), and
`passim_item_from_variant (passim_item_to_variant x)` restores exactly
those seven fields of `x`. -/
theorem passim_item_variant_roundtrip (items : Store) (x : PassimItem)
    (b c hsh : String)
    (hb : x.basename = some b) (hc : x.cmdline = some c) (hh : x.hash = some hsh) :
    (∀ rec ∈ passim_server_get_items items,
      ∃ y ∈ storeValues items, rec = passim_item_to_variant y) ∧
    (passim_item_to_variant x).map Prod.fst
      = ["filename", "cmdline", "hash", "max-age", "flags",
         "share-limit", "share-count"] ∧
    (passim_item_from_variant (passim_item_to_variant x)).basename = x.basename ∧
    (passim_item_from_variant (passim_item_to_variant x)).cmdline = x.cmdline ∧
    (passim_item_from_variant (passim_item_to_variant x)).hash = x.hash ∧
    (passim_item_from_variant (passim_item_to_variant x)).maxAge = x.maxAge ∧
    (passim_item_from_variant (passim_item_to_variant x)).flags = x.flags ∧
    (passim_item_from_variant (passim_item_to_variant x)).shareLimit = x.shareLimit ∧
    (passim_item_from_variant (passim_item_to_variant x)).shareCount = x.shareCount := by
  have hv : passim_item_to_variant x =
      [("filename", GVar.vs b), ("cmdline", GVar.vs c), ("hash", GVar.vs hsh),
       ("max-age", GVar.vu32 x.maxAge), ("flags", GVar.vu64 x.flags),
       ("share-limit", GVar.vu32 x.shareLimit),
       ("share-count", GVar.vu32 x.shareCount)] := by
    unfold passim_item_to_variant
    rw [hb, hc, hh]
  refine ⟨?_, ?_, ?_, ?_, ?_, ?_, ?_, ?_, ?_⟩
  · intro rec hrec
    unfold passim_server_get_items at hrec
    obtain ⟨y, hy, rfl⟩ := List.mem_map.mp hrec
    exact ⟨y, hy, rfl⟩
  all_goals
    rw [hv]
    simp [passim_item_from_variant, passim_item_from_variant_step,
      passim_item_new, hb, hc, hh]

/-- C8 witness: the amended theorem applied to `roundtripItem` in a
one-item store. -/
theorem passim_item_variant_roundtrip_witness :
    (∀ rec ∈ passim_server_get_items [(sampleHash, roundtripItem)],
      ∃ y ∈ storeValues [(sampleHash, roundtripItem)],
        rec = passim_item_to_variant y) ∧
    (passim_item_to_variant roundtripItem).map Prod.fst
      = ["filename", "cmdline", "hash", "max-age", "flags",
         "share-limit", "share-count"] ∧
    (passim_item_from_variant (passim_item_to_variant roundtripItem)).basename
      = roundtripItem.basename ∧
    (passim_item_from_variant (passim_item_to_variant roundtripItem)).cmdline
      = roundtripItem.cmdline ∧
    (passim_item_from_variant (passim_item_to_variant roundtripItem)).hash
      = roundtripItem.hash ∧
    (passim_item_from_variant (passim_item_to_variant roundtripItem)).maxAge
      = roundtripItem.maxAge ∧
    (passim_item_from_variant (passim_item_to_variant roundtripItem)).flags
      = roundtripItem.flags ∧
    (passim_item_from_variant (passim_item_to_variant roundtripItem)).shareLimit
      = roundtripItem.shareLimit ∧
    (passim_item_from_variant (passim_item_to_variant roundtripItem)).shareCount
      = roundtripItem.shareCount :=
  passim_item_variant_roundtrip [(sampleHash, roundtripItem)] roundtripItem
    "HELLO.md" "fwupd" sampleHash (by decide) (by decide) (by decide)

/-! ## C9 -/

/-- C9: `passim_server_delete_item` is atomic with respect to a failing
file delete.  If `g_file_delete` fails, the item table is unchanged (the
item is still found, and its hash is still in the advertised non-
disabled hash set) and Avahi re-registration is not invoked; only a
successful delete removes the table entry, after which the hash no
longer resolves, and only then is re-registration performed. -/
theorem passim_delete_item_atomic (items : Store) (item : PassimItem)
    (hash : String) (regOk : Bool)
    (hh : item.hash = some hash)
    (hmem : storeLookup items hash = some item)
    (hdis : passim_item_has_flag item PASSIM_ITEM_FLAG_DISABLED = false) :
    (passim_server_delete_item items item false regOk = (items, false, false) ∧
      storeLookup items hash = some item ∧
      hash ∈ passim_server_advertised_hashes items) ∧
    (passim_server_delete_item items item true regOk
        = (storeRemove items hash, true, regOk) ∧
      storeLookup (storeRemove items hash) hash = none ∧
      hash ∉ storeKeys (storeRemove items hash)) := by
  refine ⟨⟨rfl, hmem, ?_⟩, ⟨?_, storeLookup_remove_self items hash,
    storeKeys_remove_self items hash⟩⟩
  · unfold passim_server_advertised_hashes
    rw [List.mem_filterMap]
    refine ⟨item, storeLookup_mem_values hmem, ?_⟩
    rw [hdis]
    simpa using hh
  · unfold passim_server_delete_item
    rw [hh]
    rfl

set_option maxRecDepth 40000 in
/-- C9 witness: the theorem applied to a one-item store holding
`roundtripItem` under its hash. -/
theorem passim_delete_item_atomic_witness :
    (passim_server_delete_item [(sampleHash, roundtripItem)] roundtripItem false true
        = ([(sampleHash, roundtripItem)], false, false) ∧
      storeLookup [(sampleHash, roundtripItem)] sampleHash = some roundtripItem ∧
      sampleHash ∈ passim_server_advertised_hashes [(sampleHash, roundtripItem)]) ∧
    (passim_server_delete_item [(sampleHash, roundtripItem)] roundtripItem true true
        = (storeRemove [(sampleHash, roundtripItem)] sampleHash, true, true) ∧
      storeLookup (storeRemove [(sampleHash, roundtripItem)] sampleHash) sampleHash
        = none ∧
      sampleHash ∉ storeKeys (storeRemove [(sampleHash, roundtripItem)] sampleHash)) :=
  passim_delete_item_atomic [(sampleHash, roundtripItem)] roundtripItem sampleHash true
    (by decide) (by decide) (by decide)

/-! ## Publish result shapes and the flag lemma -/

/-- Adding a flag whose bit `i` is set makes the item carry that
flag. -/
theorem passim_item_add_flag_has (item : PassimItem) (flag i : Nat)
    (hbit : Nat.testBit flag i = true) :
    passim_item_has_flag (passim_item_add_flag item flag) flag = true := by
  unfold passim_item_add_flag passim_item_has_flag
  by_cases h0 : flag = 0
  · subst h0
    rw [Nat.zero_testBit] at hbit
    exact absurd hbit (Bool.false_ne_true)
  · rw [if_neg h0]
    by_cases h1 : item.flags &&& flag > 0
    · rw [if_pos h1]; simpa using h1
    · rw [if_neg h1]
      have hb2 : ((item.flags ||| flag) &&& flag).testBit i = true := by
        rw [Nat.testBit_land, Nat.testBit_lor, hbit]
        simp
      have hne : (item.flags ||| flag) &&& flag ≠ 0 := by
        intro hz
        rw [hz, Nat.zero_testBit] at hb2
        exact Bool.false_ne_true hb2
      simp only [gt_iff_lt, decide_eq_true_eq]
      exact Nat.pos_of_ne_zero hne

/-- A freshly inserted key is contained. -/
theorem storeContains_insert_self (items : Store) (k : String) (v : PassimItem) :
    storeContains (storeInsert items k v) k = true := by
  simp [storeContains, storeLookup_insert_self]

/-- The item a successful `passim_server_publish_file` stores: the
input item — made `DISABLED` when it was tagged `NEXT_REBOOT` — with the
computed hash and backing file recorded. -/
def passim_publish_result_item (item : PassimItem) (blob : List Nat) : PassimItem :=
  { (if passim_item_has_flag item PASSIM_ITEM_FLAG_NEXT_REBOOT
     then passim_item_add_flag item PASSIM_ITEM_FLAG_DISABLED
     else item) with
    hash := some (sha256_hexdigest blob),
    file := some (sha256_hexdigest blob ++ "-" ++ item.basename.getD "") }

/-- The disk file a successful `passim_server_publish_file` writes,
with the xattrs it sets. -/
def passim_publish_result_file (item : PassimItem) (blob : List Nat)
    (bootTimeNow : String) : DiskFile :=
  { name := sha256_hexdigest blob ++ "-" ++ item.basename.getD "",
    bytes := blob,
    maxAgeAttr := some item.maxAge,
    shareLimitAttr := some item.shareLimit,
    cmdlineAttr := some (item.cmdline.getD ""),
    bootTimeAttr :=
      if passim_item_has_flag item PASSIM_ITEM_FLAG_NEXT_REBOOT
      then some bootTimeNow else none }

/-- With no duplicate hash and an all-successful I/O environment,
`passim_server_publish_file` succeeds with exactly the item and disk
file above, inserting the item under its content hash. -/
theorem passim_publish_ok_eq (items : Store) (blob : List Nat)
    (item : PassimItem) (boot : String)
    (hc : storeContains items (sha256_hexdigest blob) = false) :
    passim_server_publish_file items blob item {} boot
      = (storeInsert items (sha256_hexdigest blob)
           (passim_publish_result_item item blob),
         Except.ok (passim_publish_result_item item blob,
                    passim_publish_result_file item blob boot)) := by
  simp [passim_server_publish_file, hc,
    passim_publish_result_item, passim_publish_result_file]

/-- The publish input of the repository's own walk-through: basename
`HELLO.md`, published by `fwupd`. -/
def publishInputItem : PassimItem :=
  { basename := some "HELLO.md", cmdline := some "fwupd" }

/-! ## C5 -/

/-- C5: publishing a blob whose hash is not yet stored succeeds, the
stored item's hash is exactly the SHA-256 hex digest of the supplied
bytes, and publishing the same bytes again — under any I/O environment
and boot token — fails with `G_IO_ERROR_EXISTS` (AlreadyExists) while
leaving the item table unchanged. -/
theorem passim_publish_hash_and_duplicate (items : Store) (blob : List Nat)
    (item : PassimItem) (boot : String)
    (hc : storeContains items (sha256_hexdigest blob) = false) :
    passim_server_publish_file items blob item {} boot
      = (storeInsert items (sha256_hexdigest blob)
           (passim_publish_result_item item blob),
         Except.ok (passim_publish_result_item item blob,
                    passim_publish_result_file item blob boot)) ∧
    (passim_publish_result_item item blob).hash
      = some (sha256_hexdigest blob) ∧
    ∀ (item3 : PassimItem) (env2 : PublishEnv) (boot2 : String),
      passim_server_publish_file
          (storeInsert items (sha256_hexdigest blob)
            (passim_publish_result_item item blob))
          blob item3 env2 boot2
        = (storeInsert items (sha256_hexdigest blob)
             (passim_publish_result_item item blob),
           Except.error PublishError.alreadyExists) := by
  refine ⟨passim_publish_ok_eq items blob item boot hc, rfl, ?_⟩
  intro item3 env2 boot2
  simp [passim_server_publish_file, storeContains_insert_self]

/-- C5 witness: the theorem applied to the `"hello world\n"` blob over
the empty store. -/
theorem passim_publish_hash_and_duplicate_witness :
    passim_server_publish_file [] helloWorldBytes publishInputItem {} "1700000000"
      = (storeInsert [] (sha256_hexdigest helloWorldBytes)
           (passim_publish_result_item publishInputItem helloWorldBytes),
         Except.ok (passim_publish_result_item publishInputItem helloWorldBytes,
                    passim_publish_result_file publishInputItem helloWorldBytes
                      "1700000000")) ∧
    (passim_publish_result_item publishInputItem helloWorldBytes).hash
      = some (sha256_hexdigest helloWorldBytes) ∧
    ∀ (item3 : PassimItem) (env2 : PublishEnv) (boot2 : String),
      passim_server_publish_file
          (storeInsert [] (sha256_hexdigest helloWorldBytes)
            (passim_publish_result_item publishInputItem helloWorldBytes))
          helloWorldBytes item3 env2 boot2
        = (storeInsert [] (sha256_hexdigest helloWorldBytes)
             (passim_publish_result_item publishInputItem helloWorldBytes),
           Except.error PublishError.alreadyExists) :=
  passim_publish_hash_and_duplicate [] helloWorldBytes publishInputItem "1700000000" rfl

/-! ## C6 -/

/-- C6: an item tagged `NEXT_REBOOT` is published successfully but the
stored item carries the `DISABLED` flag, and the publish records the
current boot token in the file's `user.boot_time` xattr; on a later
startup scan of that file, a current boot token different from the
recorded one loads the item without the `DISABLED` flag, while an equal
token leaves it `DISABLED` (and `NEXT_REBOOT`). -/
theorem passim_next_reboot_lifecycle (items : Store) (blob : List Nat)
    (item : PassimItem) (boot c : String)
    (hnr : passim_item_has_flag item PASSIM_ITEM_FLAG_NEXT_REBOOT = true)
    (hc : storeContains items (sha256_hexdigest blob) = false)
    (hma : item.maxAge ≠ G_MAXUINT32)
    (hsl : item.shareLimit ≠ G_MAXUINT32)
    (hcl : item.cmdline = some c) (hcne : c ≠ "") (hbne : boot ≠ "")
    (hsplit : ∃ a b, gStrsplitMax2 (passim_publish_result_file item blob boot).name
        (Char.ofNat 45) = [a, b]) :
    passim_server_publish_file items blob item {} boot
      = (storeInsert items (sha256_hexdigest blob)
           (passim_publish_result_item item blob),
         Except.ok (passim_publish_result_item item blob,
                    passim_publish_result_file item blob boot)) ∧
    passim_item_has_flag (passim_publish_result_item item blob)
      PASSIM_ITEM_FLAG_DISABLED = true ∧
    (passim_publish_result_file item blob boot).bootTimeAttr = some boot ∧
    (∀ (st : Store) (boot2 : String), boot2 ≠ boot →
      ∃ st2, passim_server_libdir_add st (passim_publish_result_file item blob boot)
          boot2 = Except.ok st2 ∧
        ∃ it, storeLookup st2 (sha256_hexdigest blob) = some it ∧
          passim_item_has_flag it PASSIM_ITEM_FLAG_DISABLED = false) ∧
    (∀ st : Store,
      ∃ st2, passim_server_libdir_add st (passim_publish_result_file item blob boot)
          boot = Except.ok st2 ∧
        ∃ it, storeLookup st2 (sha256_hexdigest blob) = some it ∧
          passim_item_has_flag it PASSIM_ITEM_FLAG_DISABLED = true ∧
          passim_item_has_flag it PASSIM_ITEM_FLAG_NEXT_REBOOT = true) := by
  obtain ⟨pa, pb, hsp⟩ := hsplit
  have hdf : (passim_publish_result_file item blob boot).bootTimeAttr = some boot := by
    simp [passim_publish_result_file, hnr]
  refine ⟨passim_publish_ok_eq items blob item boot hc, ?_, hdf, ?_, ?_⟩
  · unfold passim_publish_result_item
    rw [hnr]
    simp only [if_true]
    have := passim_item_add_flag_has item PASSIM_ITEM_FLAG_DISABLED 0 (by decide)
    unfold passim_item_has_flag at this ⊢
    simpa using this
  · intro st boot2 hne2
    have hadd : passim_server_libdir_add st (passim_publish_result_file item blob boot)
        boot2
        = Except.ok (storeInsert st (sha256_hexdigest blob)
            { hash := some (sha256_hexdigest blob), basename := some pb,
              cmdline := some c, maxAge := item.maxAge,
              shareLimit := item.shareLimit, shareCount := 0, flags := 0,
              file := some (passim_publish_result_file item blob boot).name,
              bytes := none,
              ctime := some (passim_publish_result_file item blob boot).ctime }) := by
      unfold passim_server_libdir_add
      rw [hsp]
      simp [passim_publish_result_file, hnr, passim_xattr_get_uint32,
        passim_xattr_get_string, hma, hsl, hcl, hcne, hbne, hne2]
    exact ⟨_, hadd, _, storeLookup_insert_self _ _ _,
      by simp [passim_item_has_flag, PASSIM_ITEM_FLAG_DISABLED]⟩
  · intro st
    have hadd : passim_server_libdir_add st (passim_publish_result_file item blob boot)
        boot
        = Except.ok (storeInsert st (sha256_hexdigest blob)
            { hash := some (sha256_hexdigest blob), basename := some pb,
              cmdline := some c, maxAge := item.maxAge,
              shareLimit := item.shareLimit, shareCount := 0,
              flags := PASSIM_ITEM_FLAG_NEXT_REBOOT ||| PASSIM_ITEM_FLAG_DISABLED,
              file := some (passim_publish_result_file item blob boot).name,
              bytes := none,
              ctime := some (passim_publish_result_file item blob boot).ctime }) := by
      unfold passim_server_libdir_add
      rw [hsp]
      simp [passim_publish_result_file, hnr, passim_xattr_get_uint32,
        passim_xattr_get_string, hma, hsl, hcl, hcne, hbne]
    exact ⟨_, hadd, _, storeLookup_insert_self _ _ _,
      by simp [passim_item_has_flag, PASSIM_ITEM_FLAG_DISABLED,
        PASSIM_ITEM_FLAG_NEXT_REBOOT],
      by (simp [passim_item_has_flag, PASSIM_ITEM_FLAG_DISABLED,
            PASSIM_ITEM_FLAG_NEXT_REBOOT]; decide)⟩

/-- A publish input tagged `NEXT_REBOOT`. -/
def nextRebootItem : PassimItem :=
  { basename := some "HELLO.md", cmdline := some "fwupd",
    flags := PASSIM_ITEM_FLAG_NEXT_REBOOT }

set_option maxRecDepth 40000 in
/-- C6 witness: the lifecycle theorem applied to a concrete
`NEXT_REBOOT` publish of `"hello world\n"` at boot token
`"1700000000"`. -/
theorem passim_next_reboot_lifecycle_witness :
    passim_server_publish_file [] helloWorldBytes nextRebootItem {} "1700000000"
      = (storeInsert [] (sha256_hexdigest helloWorldBytes)
           (passim_publish_result_item nextRebootItem helloWorldBytes),
         Except.ok (passim_publish_result_item nextRebootItem helloWorldBytes,
                    passim_publish_result_file nextRebootItem helloWorldBytes
                      "1700000000")) ∧
    passim_item_has_flag (passim_publish_result_item nextRebootItem helloWorldBytes)
      PASSIM_ITEM_FLAG_DISABLED = true ∧
    (passim_publish_result_file nextRebootItem helloWorldBytes
      "1700000000").bootTimeAttr = some "1700000000" ∧
    (∀ (st : Store) (boot2 : String), boot2 ≠ "1700000000" →
      ∃ st2, passim_server_libdir_add st
          (passim_publish_result_file nextRebootItem helloWorldBytes "1700000000")
          boot2 = Except.ok st2 ∧
        ∃ it, storeLookup st2 (sha256_hexdigest helloWorldBytes) = some it ∧
          passim_item_has_flag it PASSIM_ITEM_FLAG_DISABLED = false) ∧
    (∀ st : Store,
      ∃ st2, passim_server_libdir_add st
          (passim_publish_result_file nextRebootItem helloWorldBytes "1700000000")
          "1700000000" = Except.ok st2 ∧
        ∃ it, storeLookup st2 (sha256_hexdigest helloWorldBytes) = some it ∧
          passim_item_has_flag it PASSIM_ITEM_FLAG_DISABLED = true ∧
          passim_item_has_flag it PASSIM_ITEM_FLAG_NEXT_REBOOT = true) :=
  passim_next_reboot_lifecycle [] helloWorldBytes nextRebootItem "1700000000" "fwupd"
    (by decide) rfl (by decide) (by decide) rfl (by decide) (by decide)
    ⟨_, _, rfl⟩

/-! ## C10 -/

/-- C10: a publish whose item carries the unlimited sentinel
`G_MAXUINT32` in `max_age` or `share_limit` succeeds and writes that
sentinel into the corresponding xattr; reading the file back at the next
startup scan rejects the sentinel as invalid data
(`passim_xattr_get_uint32` returns the `G_MAXUINT32` error marker), the
owned-directory scan aborts with that error, and `main` exits with
code 1 — sentinel-valued attributes cannot be reloaded across a
restart. -/
theorem passim_sentinel_xattr_scan_rejection (items : Store) (blob : List Nat)
    (item : PassimItem) (boot : String)
    (hc : storeContains items (sha256_hexdigest blob) = false)
    (hsent : item.maxAge = G_MAXUINT32 ∨ item.shareLimit = G_MAXUINT32)
    (hsplit : ∃ a b, gStrsplitMax2 (passim_publish_result_file item blob boot).name
        (Char.ofNat 45) = [a, b]) :
    passim_server_publish_file items blob item {} boot
      = (storeInsert items (sha256_hexdigest blob)
           (passim_publish_result_item item blob),
         Except.ok (passim_publish_result_item item blob,
                    passim_publish_result_file item blob boot)) ∧
    ((passim_publish_result_file item blob boot).maxAgeAttr = some G_MAXUINT32 ∨
      (passim_publish_result_file item blob boot).shareLimitAttr
        = some G_MAXUINT32) ∧
    (∀ (st : Store) (boot2 : String),
      passim_server_libdir_add st (passim_publish_result_file item blob boot) boot2
        = Except.error ScanError.invalidData) ∧
    (∀ boot2 : String,
      passim_server_main_scan_exit [passim_publish_result_file item blob boot] boot2
        = some 1) := by
  obtain ⟨pa, pb, hsp⟩ := hsplit
  have hadd : ∀ (st : Store) (boot2 : String),
      passim_server_libdir_add st (passim_publish_result_file item blob boot) boot2
        = Except.error ScanError.invalidData := by
    intro st boot2
    unfold passim_server_libdir_add
    rw [hsp]
    rcases hsent with hs | hs
    · simp [passim_publish_result_file, passim_xattr_get_uint32, hs]
    · by_cases hma : item.maxAge = G_MAXUINT32
      · simp [passim_publish_result_file, passim_xattr_get_uint32, hma]
      · simp [passim_publish_result_file, passim_xattr_get_uint32, hma, hs]
  refine ⟨passim_publish_ok_eq items blob item boot hc, ?_, hadd, ?_⟩
  · rcases hsent with hs | hs
    · exact Or.inl (by simp [passim_publish_result_file, hs])
    · exact Or.inr (by simp [passim_publish_result_file, hs])
  · intro boot2
    simp [passim_server_main_scan_exit, passim_server_libdir_scan, hadd [] boot2]

/-- A publish input carrying the unlimited `max_age` sentinel. -/
def sentinelItem : PassimItem :=
  { basename := some "HELLO.md", cmdline := some "fwupd", maxAge := G_MAXUINT32 }

set_option maxRecDepth 40000 in
/-- C10 witness: the theorem applied to a concrete sentinel publish of
`"hello world\n"`. -/
theorem passim_sentinel_xattr_scan_rejection_witness :
    passim_server_publish_file [] helloWorldBytes sentinelItem {} "1700000000"
      = (storeInsert [] (sha256_hexdigest helloWorldBytes)
           (passim_publish_result_item sentinelItem helloWorldBytes),
         Except.ok (passim_publish_result_item sentinelItem helloWorldBytes,
                    passim_publish_result_file sentinelItem helloWorldBytes
                      "1700000000")) ∧
    ((passim_publish_result_file sentinelItem helloWorldBytes
        "1700000000").maxAgeAttr = some G_MAXUINT32 ∨
      (passim_publish_result_file sentinelItem helloWorldBytes
        "1700000000").shareLimitAttr = some G_MAXUINT32) ∧
    (∀ (st : Store) (boot2 : String),
      passim_server_libdir_add st
          (passim_publish_result_file sentinelItem helloWorldBytes "1700000000")
          boot2
        = Except.error ScanError.invalidData) ∧
    (∀ boot2 : String,
      passim_server_main_scan_exit
          [passim_publish_result_file sentinelItem helloWorldBytes "1700000000"]
          boot2
        = some 1) :=
  passim_sentinel_xattr_scan_rejection [] helloWorldBytes sentinelItem "1700000000"
    rfl (Or.inl rfl) ⟨_, _, rfl⟩

/-! ## C2 -/

set_option maxRecDepth 40000 in
/-- C2 counterexample: a serve to a *loopback* peer also increments
`share_count`.  With `roundtripItem` (share count 0) stored under its
hash, a loopback GET for that hash leaves the store with share count 1,
not the unchanged 0 the claim requires for loopback serves. -/
theorem passim_share_count_loopback_increment :
    (storeLookup
        (passim_server_handle_request [(sampleHash, roundtripItem)]
          { method := "GET", path := "/HELLO.md",
            query := some ("sha256=" ++ sampleHash), isLoopback := true }
          true true)
        sampleHash).map PassimItem.shareCount = some 1 ∧
    (some 1 : Option Nat) ≠ some 0 := by
  refine ⟨by decide, by decide⟩

/-- C2 (amended): every successful serve of a stored, non-disabled item
— whether the peer is loopback or not — increments the item's
`share_count` by exactly 1 (modulo 2^32); when the incremented count has
reached `share_limit` and `share_limit > 0` (the code's guard, rather
than a comparison against the `G_MAXUINT32` sentinel) and the backing
file delete succeeds, the item is removed from the table and so absent
from the next `GetItems`; if the delete fails the item stays, with the
incremented count. -/
theorem passim_serve_share_count_discipline (items : Store) (req : HttpRequest)
    (hash : String) (item : PassimItem) (deleteOk regOk : Bool)
    (hcls : passim_server_handler_cb items req = HandlerAction.serve hash)
    (hl : storeLookup items hash = some item)
    (hh : item.hash = some hash) :
    (¬ (item.shareLimit > 0 ∧ (item.shareCount + 1) % M32 ≥ item.shareLimit) →
      storeLookup (passim_server_handle_request items req deleteOk regOk) hash
        = some { item with shareCount := (item.shareCount + 1) % M32 }) ∧
    ((item.shareLimit > 0 ∧ (item.shareCount + 1) % M32 ≥ item.shareLimit) →
      deleteOk = true →
      storeLookup (passim_server_handle_request items req deleteOk regOk) hash
        = none ∧
      hash ∉ storeKeys (passim_server_handle_request items req deleteOk regOk)) ∧
    ((item.shareLimit > 0 ∧ (item.shareCount + 1) % M32 ≥ item.shareLimit) →
      deleteOk = false →
      storeLookup (passim_server_handle_request items req deleteOk regOk) hash
        = some { item with shareCount := (item.shareCount + 1) % M32 }) := by
  have hreq : passim_server_handle_request items req deleteOk regOk
      = passim_server_msg_send_item items hash deleteOk regOk := by
    unfold passim_server_handle_request
    rw [hcls]
  rw [hreq]
  unfold passim_server_msg_send_item
  rw [hl]
  simp only
  by_cases hcond : item.shareLimit > 0 ∧ (item.shareCount + 1) % M32 ≥ item.shareLimit
  · rw [if_pos hcond]
    unfold passim_server_delete_item
    refine ⟨fun hno => absurd hcond hno, fun _ hdel => ?_, fun _ hdel => ?_⟩
    · subst hdel
      simp only [Bool.not_true, Bool.false_eq_true, if_false]
      have hgetd : ({ item with shareCount := (item.shareCount + 1) % M32
          } : PassimItem).hash.getD "" = hash := by
        simp [hh]
      rw [hgetd]
      exact ⟨storeLookup_remove_self _ _, storeKeys_remove_self _ _⟩
    · subst hdel
      simp only [Bool.not_false, if_true]
      exact storeLookup_insert_self _ _ _
  · rw [if_neg hcond]
    refine ⟨fun _ => storeLookup_insert_self _ _ _,
      fun hyes _ => absurd hyes hcond,
      fun hyes _ => absurd hyes hcond⟩

/-- A stored item one serve away from its share limit. -/
def limitOneItem : PassimItem :=
  { hash := some sampleHash, basename := some "HELLO.md", cmdline := some "fwupd",
    shareLimit := 1 }

set_option maxRecDepth 40000 in
/-- C2 witness: the amended theorem applied to a non-loopback GET for a
stored item with `share_limit` 1, a successful file delete, and the
increment reaching the limit. -/
theorem passim_serve_share_count_discipline_witness :
    (¬ (limitOneItem.shareLimit > 0 ∧
          (limitOneItem.shareCount + 1) % M32 ≥ limitOneItem.shareLimit) →
      storeLookup (passim_server_handle_request [(sampleHash, limitOneItem)]
          { method := "GET", path := "/HELLO.md",
            query := some ("sha256=" ++ sampleHash), isLoopback := false }
          true true) sampleHash
        = some { limitOneItem with
                 shareCount := (limitOneItem.shareCount + 1) % M32 }) ∧
    ((limitOneItem.shareLimit > 0 ∧
        (limitOneItem.shareCount + 1) % M32 ≥ limitOneItem.shareLimit) →
      true = true →
      storeLookup (passim_server_handle_request [(sampleHash, limitOneItem)]
          { method := "GET", path := "/HELLO.md",
            query := some ("sha256=" ++ sampleHash), isLoopback := false }
          true true) sampleHash
        = none ∧
      sampleHash ∉ storeKeys (passim_server_handle_request
          [(sampleHash, limitOneItem)]
          { method := "GET", path := "/HELLO.md",
            query := some ("sha256=" ++ sampleHash), isLoopback := false }
          true true)) ∧
    ((limitOneItem.shareLimit > 0 ∧
        (limitOneItem.shareCount + 1) % M32 ≥ limitOneItem.shareLimit) →
      true = false →
      storeLookup (passim_server_handle_request [(sampleHash, limitOneItem)]
          { method := "GET", path := "/HELLO.md",
            query := some ("sha256=" ++ sampleHash), isLoopback := false }
          true true) sampleHash
        = some { limitOneItem with
                 shareCount := (limitOneItem.shareCount + 1) % M32 }) :=
  passim_serve_share_count_discipline [(sampleHash, limitOneItem)]
    { method := "GET", path := "/HELLO.md",
      query := some ("sha256=" ++ sampleHash), isLoopback := false }
    sampleHash limitOneItem true true (by decide) (by decide) rfl
